import Mathlib

/-!
# A shallow embedding of `gol.py` (PyGOL)

This file embeds the single source file `gol.py` of the PyGOL repository
in Lean 4 and settles the specification claims against it.

Modelling conventions:

* A Python `Cell` object is a `Cell` structure; the field `id` models the
  object's identity (two cells are the same Python object iff their `id`s
  agree — `list.index` and `==` on plain objects compare identity).
* Cell states are the strings `"Alive"` / `"Dead"` exactly as in the source;
  `self._new_state` (`None` or a string) is an `Option String`, and Python
  truthiness of that slot is `none ↦ false`, `some s ↦ (s ≠ "")`.
* Fallible Python code returns `Except PyError _`.  Where the raised
  exception leaves mutated objects behind (the stepper's in-place updates),
  the error value also carries the mutated cell list.
* Unbound-name failures (`NameError`) are modelled explicitly: the names
  bound in the module / enclosing scopes are listed, and reading a name is a
  lookup in that list.  The module-level scope of `gol.py` binds exactly
  `Cell`, `AbstractTopology`, `PlaneTopology`, `stepper` and `conway_rule`.
* `conway_rule` (lines 181–194) contains `if cell.status = "Alive"`, read
  here as the evidently intended `==`, and reads the attribute `status`
  of cells, read here as the cell's state attribute (the only state-bearing
  attribute a `Cell` has); both slips are recorded with the claim analysis.
-/

namespace PyGOL

/-- A `Cell` object of `gol.py`: `id` models Python object identity,
`state` is `self._state`, `new_state` is `self._new_state` (`None ↦ none`). -/
structure Cell where
  id : Nat
  state : String
  new_state : Option String
deriving DecidableEq

/-- The Python exceptions that the embedded code can raise. -/
inductive PyError where
  | nameError : String → PyError
  | valueError : PyError
  | indexError : PyError
deriving DecidableEq

/-- The names bound at module level in `gol.py` once the module body has
executed: its five top-level definitions.  Note that neither `Dead` nor
`initial_state` nor `cells` is among them. -/
def moduleNames : List String :=
  ["Cell", "AbstractTopology", "PlaneTopology", "stepper", "conway_rule"]

/-- The Python builtins the source refers to. -/
def builtinNames : List String :=
  ["object", "property", "len", "xrange", "NotImplementedError", "None",
   "True", "False"]

/-- Names bound in the scope of `Cell.__init__` (line 29): the parameters
`self` and the misspelled `inital_state`. -/
def cellScopeNames : List String := ["self", "inital_state"]

/-- Names bound in the scope of `step_function` (lines 173–178): its
parameter, loop variables, and the closed-over `topology` and `rule`.
The name `cells` used on line 177 is not among them. -/
def stepFunctionScopeNames : List String :=
  ["steps", "step", "cell", "topology", "rule"] ++ moduleNames ++ builtinNames

/-- Reading a name in Python: succeeds iff the name is bound in the given
scope chain, otherwise raises `NameError`. -/
def lookupName (scope : List String) (n : String) : Except PyError Unit :=
  if n ∈ scope then Except.ok () else Except.error (PyError.nameError n)

/-- `Cell.__init__` (lines 29–31):
`def __init__(self, inital_state = Dead): self._state = initial_state; ...`.
Calling `Cell()` evaluates the default expression `Dead` (a free name) and
then the body reads `initial_state` (the parameter is spelled
`inital_state`); both are name lookups that fail.  The final `Except.ok`
is unreachable. -/
def cellInit : Except PyError Cell := do
  let _ ← lookupName (moduleNames ++ builtinNames) "Dead"
  let _ ← lookupName (cellScopeNames ++ moduleNames ++ builtinNames) "initial_state"
  Except.ok { id := 0, state := "", new_state := none }

/-- `[Cell() for i in xrange(n)]` (line 146): build `n` cells, propagating
the first exception. -/
def buildCells : Nat → Except PyError (List Cell)
  | 0 => Except.ok []
  | n + 1 => do
    let c ← cellInit
    let rest ← buildCells n
    Except.ok (c :: rest)

/-- The `PlaneTopology` object state: `_height`, `_width`, `_cells`. -/
structure PlaneTopology where
  height : Nat
  width : Nat
  cells : List Cell
deriving DecidableEq

/-- Python list subscription `cs[i]`: a negative index counts from the end,
any index outside `[-len, len)` raises `IndexError`. -/
def pyGet (cs : List Cell) (i : Int) : Except PyError Cell :=
  let j : Int := if i < 0 then i + (cs.length : Int) else i
  if 0 ≤ j then
    match cs[j.toNat]? with
    | some c => Except.ok c
    | none => Except.error PyError.indexError
  else Except.error PyError.indexError

/-- `self._cells[i].alive()` (line 149): subscription with Python index
semantics, then setting the state to `"Alive"` in place. -/
def setAlive (cs : List Cell) (i : Int) : Except PyError (List Cell) :=
  let j : Int := if i < 0 then i + (cs.length : Int) else i
  if 0 ≤ j then
    match cs[j.toNat]? with
    | some c => Except.ok (cs.set j.toNat { c with state := "Alive" })
    | none => Except.error PyError.indexError
  else Except.error PyError.indexError

/-- `PlaneTopology.__init__` (lines 143–149): store the dimensions, build
`height * width` default cells (each `Cell()` call raises, see `cellInit`),
then — were that reached — set each supplied `(row, column)` pair alive at
flat index `row * width + column`, with no bounds check of its own
(`if initial_live_cells:` is Python truthiness: an empty list, like `None`,
skips the loop). -/
def planeTopologyInit (height width : Nat) (initial_live_cells : List (Int × Int)) :
    Except PyError PlaneTopology := do
  let cells ← buildCells (height * width)
  if initial_live_cells.isEmpty then
    Except.ok { height := height, width := width, cells := cells }
  else do
    let cells2 ← initial_live_cells.foldlM
      (fun cs rc => setAlive cs (rc.1 * (width : Int) + rc.2)) cells
    Except.ok { height := height, width := width, cells := cells2 }

/-- Lines 154–155 of `find_neighbors`:
`row = flat_index % self._width; column = flat_index - (row * self._width)`.
Returned as the pair `(row, column)` the code goes on to use. -/
def recoverPosition (width : Nat) (flat_index : Nat) : Int × Int :=
  let row : Int := (flat_index : Int) % (width : Int)
  let column : Int := (flat_index : Int) - row * (width : Int)
  (row, column)

/-- The offset pairs visited by `for i in [-1, 1]: for j in [-1, 1]`
(lines 156–157), in loop order. -/
def strideOffsets : List (Int × Int) := [(-1, -1), (-1, 1), (1, -1), (1, 1)]

/-- `PlaneTopology.find_neighbors` (lines 151–162): locate the cell by
`self._cells.index(cell)` (identity comparison; raises `ValueError` when the
object is not in the list), recover `(row, column)` from the flat index, and
for each offset pair with non-negative candidate row and column append
`self._cells[neighbor_row * self._width + neighbor_column]`. -/
def PlaneTopology.find_neighbors (t : PlaneTopology) (c : Cell) :
    Except PyError (List Cell) :=
  match t.cells.findIdx? (fun x => x.id == c.id) with
  | none => Except.error PyError.valueError
  | some flat_index =>
    let rc := recoverPosition t.width flat_index
    strideOffsets.foldlM (fun neighbors ij => do
      let neighbor_row := rc.1 + ij.1
      let neighbor_column := rc.2 + ij.2
      if 0 ≤ neighbor_row ∧ 0 ≤ neighbor_column then do
        let n ← pyGet t.cells (neighbor_row * (t.width : Int) + neighbor_column)
        Except.ok (neighbors ++ [n])
      else
        Except.ok neighbors) []

/-- `conway_rule` (lines 181–194).  As written the body computes
`living_neighbors = len([neighbor.status for neighbor in neighbor_fn(cell)])`
— the length of the whole neighbor list, not a count of the living ones.
The neighbor states are taken here as an explicit list argument; the
`.status` attribute reads are modelled as reading the state, and the `=` on
line 183 as the intended `==` (see the file header). -/
def conway_rule (cellState : String) (neighbor_states : List String) : String :=
  let living_neighbors := neighbor_states.length
  if cellState == "Alive" then
    if living_neighbors < 2 then "Dead"
    else if living_neighbors > 3 then "Dead"
    else "Alive"
  else
    if living_neighbors == 3 then "Alive"
    else "Dead"

/-- The number of `"Alive"` entries in a list of states (what the variable
name `living_neighbors` promises). -/
def countAlive (states : List String) : Nat :=
  states.countP (fun s => s == "Alive")

/-- `Cell.update` (lines 82–85): `if self._new_state:` (Python truthiness —
`None` and the empty string are falsy) `self._state = self._new_state;
self._new_state = None`. -/
def Cell.update (c : Cell) : Cell :=
  match c.new_state with
  | none => c
  | some s => if s == "" then c else { c with state := s, new_state := none }

/-- `Cell.transactional_update` (lines 75–79): stage `"Alive"` when the rule
answers `"Alive"`, else stage `"Dead"`.  The rule's reading of the cell and
of the neighbor cells through `neighbors_fn` touches only committed states,
passed in here as `c.state` and the explicit list `ns`. -/
def Cell.transactional_update (c : Cell) (rule : String → List String → String)
    (ns : List String) : Cell :=
  if rule c.state ns == "Alive" then { c with new_state := some "Alive" }
  else { c with new_state := some "Dead" }

/-- The committed states of a cell list, as read through `read_state`
(the `state` property). -/
def readStates (w : List Cell) : List String := w.map Cell.state

/-- The committed states of cell `i`'s neighbors in world `w`, for an
abstract topology given as an index-level neighbor function `nbrs`
(the topology contract of `AbstractTopology.find_neighbors`: each neighbor
is a cell of the topology). -/
def neighborStates (nbrs : Nat → List Nat) (w : List Cell) (i : Nat) : List String :=
  (nbrs i).map (fun j => ((readStates w)[j]?).getD "")

/-- One iteration of the stage loop (line 176): cell `i` of the world is
replaced in place by its transactional update, computed from the committed
states of its neighbors in the current world. -/
def stageAt (rule : String → List String → String) (nbrs : Nat → List Nat)
    (w : List Cell) (i : Nat) : List Cell :=
  match w[i]? with
  | none => w
  | some c => w.set i (c.transactional_update rule (neighborStates nbrs w i))

/-- The stage phase (lines 175–176) run with the cells visited in the given
index order. -/
def stage_phase (rule : String → List String → String) (nbrs : Nat → List Nat)
    (order : List Nat) (w : List Cell) : List Cell :=
  order.foldl (stageAt rule nbrs) w

/-- The commit loop body the source intends on lines 177–178:
`cell.update()` for every cell. -/
def commit_phase (w : List Cell) : List Cell := w.map Cell.update

/-- The `step_function` closure returned by `stepper` (lines 172–179).  Per
step it stages every cell in enumeration order and then runs
`for cell in cells: cell.update()` — but `cells` is an unbound name, so the
commit phase raises `NameError` before committing anything.  The error value
carries the cell list as the raised exception leaves it (staged, not
committed); the `Except.ok` continuation is unreachable for positive
`steps`. -/
def step_function (rule : String → List String → String) (nbrs : Nat → List Nat) :
    Nat → List Cell → Except (PyError × List Cell) (List Cell)
  | 0, w => Except.ok w
  | k + 1, w =>
    let w1 := stage_phase rule nbrs (List.range w.length) w
    match lookupName stepFunctionScopeNames "cells" with
    | Except.error e => Except.error (e, w1)
    | Except.ok _ => step_function rule nbrs k (commit_phase w1)

/-- A concrete `height × width` `PlaneTopology` value in the object state the
constructor intends (row-major cells, all `"Dead"`, distinct identities):
the test fixture used for concrete evaluations, since the source constructor
itself never returns (see `cellInit`). -/
def grid (height width : Nat) : PlaneTopology :=
  { height := height, width := width,
    cells := (List.range (height * width)).map
      (fun i => { id := i, state := "Dead", new_state := none }) }

end PyGOL

namespace PyGOL

/-! ## Supporting lemmas for the stage phase -/

theorem transactional_update_state (c : Cell) (rule : String → List String → String)
    (ns : List String) : (c.transactional_update rule ns).state = c.state := by
  unfold Cell.transactional_update
  split <;> rfl

theorem transactional_update_idem (c : Cell) (rule : String → List String → String)
    (ns : List String) :
    (c.transactional_update rule ns).transactional_update rule ns =
      c.transactional_update rule ns := by
  simp only [Cell.transactional_update]
  split <;> simp_all

/-- The staged version of cell `i`, as a function of the committed states of
world `w` alone. -/
def stagedCell (rule : String → List String → String) (nbrs : Nat → List Nat)
    (w : List Cell) (i : Nat) : Option Cell :=
  (w[i]?).map (fun c => c.transactional_update rule (neighborStates nbrs w i))

theorem stageAt_getElem?_ne (rule : String → List String → String)
    (nbrs : Nat → List Nat) (w : List Cell) (i j : Nat) (h : j ≠ i) :
    (stageAt rule nbrs w i)[j]? = w[j]? := by
  unfold stageAt
  split
  · rfl
  · exact List.getElem?_set_ne (Ne.symm h)

theorem stageAt_getElem?_self (rule : String → List String → String)
    (nbrs : Nat → List Nat) (w : List Cell) (i : Nat) :
    (stageAt rule nbrs w i)[i]? = stagedCell rule nbrs w i := by
  unfold stageAt stagedCell
  cases h : w[i]? with
  | none => simp [h]
  | some c =>
    have hi : i < w.length := by
      by_contra hc
      rw [List.getElem?_eq_none (by omega)] at h
      exact Option.noConfusion h
    rw [List.getElem?_set_self hi]
    rfl

theorem readStates_stageAt (rule : String → List String → String)
    (nbrs : Nat → List Nat) (w : List Cell) (i : Nat) :
    readStates (stageAt rule nbrs w i) = readStates w := by
  apply List.ext_getElem?
  intro n
  simp only [readStates, List.getElem?_map]
  by_cases hn : n = i
  · subst hn
    rw [stageAt_getElem?_self]
    unfold stagedCell
    cases h : w[n]? with
    | none => rfl
    | some c => simp [transactional_update_state]
  · rw [stageAt_getElem?_ne rule nbrs w i n hn]

theorem neighborStates_stageAt (rule : String → List String → String)
    (nbrs : Nat → List Nat) (w : List Cell) (i k : Nat) :
    neighborStates nbrs (stageAt rule nbrs w i) k = neighborStates nbrs w k := by
  unfold neighborStates
  rw [readStates_stageAt]

theorem stagedCell_stageAt (rule : String → List String → String)
    (nbrs : Nat → List Nat) (w : List Cell) (i k : Nat) :
    stagedCell rule nbrs (stageAt rule nbrs w i) k = stagedCell rule nbrs w k := by
  unfold stagedCell
  rw [neighborStates_stageAt]
  by_cases hk : k = i
  · subst hk
    rw [stageAt_getElem?_self]
    unfold stagedCell
    cases h : w[k]? with
    | none => rfl
    | some c => simp [transactional_update_idem]
  · rw [stageAt_getElem?_ne rule nbrs w i k hk]

theorem stage_phase_getElem? (rule : String → List String → String)
    (nbrs : Nat → List Nat) :
    ∀ (order : List Nat) (w : List Cell) (k : Nat),
      (stage_phase rule nbrs order w)[k]? =
        if k ∈ order then stagedCell rule nbrs w k else w[k]?
  | [], w, k => by simp [stage_phase]
  | o :: os, w, k => by
    have ih := stage_phase_getElem? rule nbrs os (stageAt rule nbrs w o) k
    show (stage_phase rule nbrs os (stageAt rule nbrs w o))[k]? = _
    rw [ih, stagedCell_stageAt]
    by_cases hk : k ∈ os
    · simp [hk, List.mem_cons]
    · simp only [hk, if_false]
      by_cases hko : k = o
      · subst hko
        rw [stageAt_getElem?_self]
        simp [List.mem_cons]
      · rw [stageAt_getElem?_ne rule nbrs w o k hko]
        simp [List.mem_cons, hk, hko]

theorem readStates_stage_phase (rule : String → List String → String)
    (nbrs : Nat → List Nat) :
    ∀ (order : List Nat) (w : List Cell),
      readStates (stage_phase rule nbrs order w) = readStates w
  | [], _ => rfl
  | o :: os, w => by
    show readStates (stage_phase rule nbrs os (stageAt rule nbrs w o)) = _
    rw [readStates_stage_phase rule nbrs os (stageAt rule nbrs w o),
      readStates_stageAt]

end PyGOL

namespace PyGOL

/-! ## Claim theorems -/

/-- C1: the claim says `find_neighbors` returns the full clipped Moore
neighborhood, so an interior cell has 8 neighbors.  On the code, the interior
cell `(1, 1)` (flat index 4) of a 3×3 grid gets exactly the four cells at
flat indices 0, 2, 6 and 8 — the loop visits only the offsets
`i, j ∈ {-1, 1}`, never the 0 offsets — so the result has length 4, not 8. -/
theorem find_neighbors_diagonal_only :
    (grid 3 3).find_neighbors { id := 4, state := "Dead", new_state := none } =
      Except.ok [{ id := 0, state := "Dead", new_state := none },
        { id := 2, state := "Dead", new_state := none },
        { id := 6, state := "Dead", new_state := none },
        { id := 8, state := "Dead", new_state := none }] ∧
    [{ id := 0, state := "Dead", new_state := none },
      { id := 2, state := "Dead", new_state := none },
      { id := 6, state := "Dead", new_state := none },
      ({ id := 8, state := "Dead", new_state := none } : Cell)].length ≠ 8 := by
  constructor
  · rfl
  · decide

/-- C2: the claim says the reference rule answers `Alive` iff a `Dead` cell
has exactly 3 `Alive` neighbors (resp. 2 or 3 for an `Alive` cell).  The code
sets `living_neighbors` to the *length* of the neighbor list, so a `Dead`
cell all of whose 3 neighbors are `Dead` (0 alive) is answered `Alive`. -/
theorem conway_rule_counts_all_neighbors :
    conway_rule "Dead" ["Dead", "Dead", "Dead"] = "Alive" ∧
    countAlive ["Dead", "Dead", "Dead"] = 0 := by
  constructor
  · rfl
  · decide

/-- C3: the stage phase is order-independent — visiting the cells in any two
permutations of one another yields identical staged worlds, because each
cell's staged value is computed from committed states only (`stagedCell`). -/
theorem stage_phase_order_independent (rule : String → List String → String)
    (nbrs : Nat → List Nat) (w : List Cell) (o1 o2 : List Nat)
    (hp : o1.Perm o2) :
    stage_phase rule nbrs o1 w = stage_phase rule nbrs o2 w := by
  apply List.ext_getElem?
  intro n
  rw [stage_phase_getElem?, stage_phase_getElem?]
  simp only [hp.mem_iff]

theorem stage_phase_order_independent_witness :
    ([0, 1] : List Nat).Perm [1, 0] ∧
    stage_phase conway_rule (fun i => [1 - i]) [0, 1]
        [{ id := 0, state := "Dead", new_state := none },
         { id := 1, state := "Alive", new_state := none }] =
      stage_phase conway_rule (fun i => [1 - i]) [1, 0]
        [{ id := 0, state := "Dead", new_state := none },
         { id := 1, state := "Alive", new_state := none }] :=
  ⟨by decide,
    stage_phase_order_independent conway_rule (fun i => [1 - i]) _ [0, 1] [1, 0]
      (by decide)⟩

/-- C4: `Cell()` fails with `NameError`: the default expression `Dead` is an
unbound name, as is the `initial_state` the body reads (the parameter is
spelled `inital_state`); consequently every `PlaneTopology` construction
building at least one cell fails the same way, before any initial live cell
is set. -/
theorem cell_construction_unbound_names :
    cellInit = Except.error (PyError.nameError "Dead") ∧
    "Dead" ∉ moduleNames ++ builtinNames ∧
    "initial_state" ∉ cellScopeNames ++ moduleNames ++ builtinNames ∧
    ∀ (height width : Nat) (initial_live_cells : List (Int × Int)),
      0 < height * width →
      planeTopologyInit height width initial_live_cells =
        Except.error (PyError.nameError "Dead") := by
  refine ⟨rfl, by decide, by decide, ?_⟩
  intro height width initial_live_cells hpos
  obtain ⟨n, hn⟩ : ∃ n, height * width = n + 1 :=
    ⟨height * width - 1, by omega⟩
  unfold planeTopologyInit
  rw [hn]
  rfl

theorem cell_construction_unbound_names_witness :
    0 < 1 * 1 ∧
    planeTopologyInit 1 1 [] = Except.error (PyError.nameError "Dead") :=
  ⟨by decide, cell_construction_unbound_names.2.2.2 1 1 [] (by decide)⟩

/-- C5: for positive `steps`, the step function stages every cell of the
first generation and then raises `NameError` on the unbound name `cells` in
the commit loop, so no commit ever happens: the world the exception leaves
behind has every committed state unchanged. -/
theorem step_commit_unbound_cells (rule : String → List String → String)
    (nbrs : Nat → List Nat) (steps : Nat) (w : List Cell)
    (hs : 1 ≤ steps) (_hw : w ≠ []) :
    step_function rule nbrs steps w =
      Except.error (PyError.nameError "cells",
        stage_phase rule nbrs (List.range w.length) w) ∧
    readStates (stage_phase rule nbrs (List.range w.length) w) = readStates w := by
  constructor
  · obtain ⟨k, rfl⟩ : ∃ k, steps = k + 1 := ⟨steps - 1, by omega⟩
    rfl
  · exact readStates_stage_phase rule nbrs (List.range w.length) w

theorem step_commit_unbound_cells_witness :
    1 ≤ 1 ∧
    ([{ id := 0, state := "Dead", new_state := none }] : List Cell) ≠ [] ∧
    step_function conway_rule (fun _ => []) 1
        [{ id := 0, state := "Dead", new_state := none }] =
      Except.error (PyError.nameError "cells",
        stage_phase conway_rule (fun _ => [])
          (List.range ([{ id := 0, state := "Dead", new_state := none }] :
            List Cell).length)
          [{ id := 0, state := "Dead", new_state := none }]) :=
  ⟨by decide, by decide,
    (step_commit_unbound_cells conway_rule (fun _ => []) 1
      [{ id := 0, state := "Dead", new_state := none }]
      (by decide) (by decide)).1⟩

/-- C6: the claim says construction raises a configuration error when a
supplied pair is out of `[0,height)×[0,width)` and otherwise makes exactly
the supplied positions alive.  The code has no bounds check and no
configuration error at all: `PlaneTopology(1, 1, [(5, 5)])` fails with
`NameError` on `Dead` while building the default cells, before the pair is
ever inspected. -/
theorem plane_topology_construction_no_config_error :
    planeTopologyInit 1 1 [(5, 5)] = Except.error (PyError.nameError "Dead") := by
  rfl

/-- C7: `find_neighbors` called with a cell that is not an object of the
topology fails immediately: `self._cells.index(cell)` finds no identical
object and raises (Python's `ValueError` from `list.index` — the failed-
lookup error the specification calls `LookupError`); no neighbor list is
returned. -/
theorem find_neighbors_foreign_cell_error (t : PlaneTopology) (c : Cell)
    (h : ∀ x ∈ t.cells, x.id ≠ c.id) :
    t.find_neighbors c = Except.error PyError.valueError := by
  have hf : t.cells.findIdx? (fun x => x.id == c.id) = none := by
    rw [List.findIdx?_eq_none_iff]
    intro x hx
    simpa using h x hx
  unfold PlaneTopology.find_neighbors
  rw [hf]

theorem find_neighbors_foreign_cell_error_witness :
    (∀ x ∈ (grid 2 2).cells,
      x.id ≠ (Cell.mk 99 "Dead" none).id) ∧
    (grid 2 2).find_neighbors { id := 99, state := "Dead", new_state := none } =
      Except.error PyError.valueError :=
  ⟨by decide,
    find_neighbors_foreign_cell_error (grid 2 2)
      { id := 99, state := "Dead", new_state := none } (by decide)⟩

/-- C8: the claim says the `(row, column)` pair recovered from the flat index
equals the construction position, i.e. `row = flat / width`,
`column = flat % width`.  The code computes `row = flat % width` and
`column = flat - row * width`: for the cell constructed at `(1, 2)` of a
width-3 grid (flat index `1 * 3 + 2 = 5`) it recovers `(2, -1)`. -/
theorem recoverPosition_swapped :
    recoverPosition 3 (1 * 3 + 2) = (2, -1) ∧
    ((2 : Int), (-1 : Int)) ≠ ((1 : Int), (2 : Int)) := by
  constructor
  · rfl
  · decide

/-- C9: `commit` (the source's `update`, lines 82–85) is idempotent: a
second call with no intervening stage is a no-op, because the first call
clears the staged slot and a commit with an empty staged slot does
nothing. -/
theorem commit_idempotent (c : Cell) : c.update.update = c.update := by
  cases h : c.new_state with
  | none => simp [Cell.update, h]
  | some s =>
    by_cases hs : s = ""
    · simp [Cell.update, h, hs]
    · simp [Cell.update, h, hs]

/-- C10: zero steps is a no-op: `for step in xrange(0)` runs no stage and no
commit (the unbound `cells` of the commit loop is never even reached), and
the cell list — every committed state and staged slot — is returned exactly
as it was. -/
theorem step_zero_noop (rule : String → List String → String)
    (nbrs : Nat → List Nat) (w : List Cell) :
    step_function rule nbrs 0 w = Except.ok w := by
  rfl

end PyGOL
